import Mathlib

/-!
Verification of the bandwidth-usage reporting script (scripts/check-usage.py).

The script is shallowly embedded as follows.

* Field values of the semi-structured usage record are represented by their
  conversion behaviour: a value on which Python float(...) succeeds is
  RawNum.valid q where q is the converted number; a value on which float(...)
  raises ValueError is RawNum.invalid s.  Likewise DateStr represents date
  strings by the outcome of datetime.strptime with format percent-m slash
  percent-d slash percent-Y, and RawTs represents the data_timestamp value by
  the outcome of datetime.fromtimestamp.
* A missing dictionary key is an Option that is none; subscripting a missing
  key raises KeyError, subscripting an empty list at index -1 raises
  IndexError.
* datetime values are rationals: seconds since the Unix epoch.  strptime
  yields midnight of the parsed calendar day (daysFromCivil, the standard
  civil-calendar day-count algorithm).  Subtraction of datetimes followed by
  total_seconds() is plain rational subtraction.
* Python float division raises ZeroDivisionError on a zero divisor; this is
  pyDiv.  Arithmetic is exact (rationals) where the script uses IEEE doubles;
  none of the verified claims depends on rounding of the double precision
  operations themselves.
* main is a function of the two effectful boundaries the script has: the
  outcome of loading the configuration file and the outcome of the fetch.
  It returns the list of printed lines (structured, not formatted) and the
  way the process terminates: a sys.exit code, a normal return (exit 0), or
  an uncaught exception (process aborts, exit status 1).
-/

/-- Value supplied for the used / total fields, represented by how Python
float(...) behaves on it: valid q converts to q, invalid raises ValueError. -/
inductive RawNum
  | valid (q : ℚ)
  | invalid (s : String)
deriving DecidableEq

/-- Value supplied for startDate / endDate, represented by how strptime with
the month/day/year format behaves on it. -/
inductive DateStr
  | valid (month day year : ℤ)
  | invalid (s : String)
deriving DecidableEq

/-- Value supplied for data_timestamp, represented by how
datetime.fromtimestamp behaves on it: valid carries the epoch seconds. -/
inductive RawTs
  | valid (seconds : ℚ)
  | invalid
deriving DecidableEq

/-- One element of the usageMonths list. -/
structure MonthEntry where
  startDate : Option DateStr
  endDate : Option DateStr
deriving DecidableEq

/-- The nested dictionary stored under the top-level key raw. -/
structure RawInner where
  usageMonths : Option (List MonthEntry)
deriving DecidableEq

/-- The semi-structured record returned by the fetcher. -/
structure RawUsageRecord where
  used : Option RawNum
  total : Option RawNum
  units : Option String
  raw : Option RawInner
  data_timestamp : Option RawTs
deriving DecidableEq

/-- The dictionary returned by parse_usage_data on success. -/
structure ParsedUsage where
  used : ℚ
  total : ℚ
  units : String
  start_date : ℚ
  end_date : ℚ
  cur_date : ℚ
deriving DecidableEq

/-- The Python exceptions that arise inside the try blocks of
parse_usage_data. -/
inductive Exc
  | keyError
  | valueError
  | indexError
deriving DecidableEq

/-- How a run of the script can go wrong: a RuntimeError raised by
parse_usage_data or get_usage_data, an exception from a try block that no
except clause catches, a NameError from referencing an unbound variable, or
a ZeroDivisionError from float division by zero. -/
inductive PyErr
  | runtimeError (msg : String)
  | uncaughtExc (e : Exc)
  | nameError
  | zeroDivisionError
deriving DecidableEq

/-- Day count of a civil date (year, month, day) relative to 1970-01-01,
the standard days-from-civil algorithm over the proleptic Gregorian
calendar, as used by datetime.strptime results. -/
def daysFromCivil (y m d : ℤ) : ℤ :=
  let y2 : ℤ := y - (if m ≤ 2 then 1 else 0)
  let era : ℤ := (if 0 ≤ y2 then y2 else y2 - 399) / 400
  let yoe : ℤ := y2 - era * 400
  let doy : ℤ := (153 * (m + (if 2 < m then -3 else 9)) + 2) / 5 + d - 1
  let doe : ℤ := yoe * 365 + yoe / 4 - yoe / 100 + doy
  era * 146097 + doe - 719468

/-- The datetime (in epoch seconds) denoted by a date string of the
month/day/year format: midnight of that civil day. -/
def dateSeconds (month day year : ℤ) : ℚ :=
  (daysFromCivil year month day : ℚ) * 86400

/-- Python dictionary subscripting: raises KeyError when the key is absent. -/
def getField {α : Type} : Option α → Except Exc α
  | none => .error .keyError
  | some x => .ok x

/-- Python float(...) on a used / total value. -/
def pyFloat : RawNum → Except Exc ℚ
  | .valid q => .ok q
  | .invalid _ => .error .valueError

/-- datetime.strptime with the month/day/year format. -/
def strptime : DateStr → Except Exc ℚ
  | .valid m d y => .ok (dateSeconds m d y)
  | .invalid _ => .error .valueError

/-- datetime.fromtimestamp on the data_timestamp value. -/
def fromtimestamp : RawTs → Except Exc ℚ
  | .valid s => .ok s
  | .invalid => .error .valueError

/-- Python list subscripting at index -1: the last element, IndexError when
the list is empty. -/
def lastElem {α : Type} (xs : List α) : Except Exc α :=
  match xs.getLast? with
  | none => .error .indexError
  | some x => .ok x

/-- A Python try block with except clauses: the handler maps each exception
class to what the except clauses turn it into (an exception with no matching
clause propagates unchanged, embedded as PyErr.uncaughtExc). -/
def tryExcept {α : Type} (body : Except Exc α) (handler : Exc → PyErr) :
    Except PyErr α :=
  match body with
  | .ok a => .ok a
  | .error e => .error (handler e)

/-- Body of the first try block of parse_usage_data:
used = float(usage_data[used]); total = float(usage_data[total]);
units = usage_data[units]. -/
def usageFieldsBlock (usage_data : RawUsageRecord) :
    Except Exc (ℚ × ℚ × String) :=
  match usage_data.used with
  | none => .error .keyError
  | some uv =>
    match pyFloat uv with
    | .error e => .error e
    | .ok used =>
      match usage_data.total with
      | none => .error .keyError
      | some tv =>
        match pyFloat tv with
        | .error e => .error e
        | .ok total =>
          match usage_data.units with
          | none => .error .keyError
          | some units => .ok (used, total, units)

/-- Body of the second try block:
last_month = usage_data[raw][usageMonths][-1]. -/
def lastMonthBlock (usage_data : RawUsageRecord) : Except Exc MonthEntry :=
  match usage_data.raw with
  | none => .error .keyError
  | some inner =>
    match inner.usageMonths with
    | none => .error .keyError
    | some months => lastElem months

/-- Body of the third try block:
start_date = strptime(last_month[startDate]);
end_date = strptime(last_month[endDate]). -/
def dateRangeBlock (last_month : MonthEntry) : Except Exc (ℚ × ℚ) :=
  match last_month.startDate with
  | none => .error .keyError
  | some sd =>
    match strptime sd with
    | .error e => .error e
    | .ok s =>
      match last_month.endDate with
      | none => .error .keyError
      | some ed =>
        match strptime ed with
        | .error e => .error e
        | .ok en => .ok (s, en)

/-- Body of the fourth try block:
cur_date = datetime.fromtimestamp(usage_data[data_timestamp]). -/
def curDateBlock (usage_data : RawUsageRecord) : Except Exc ℚ :=
  match usage_data.data_timestamp with
  | none => .error .keyError
  | some ts => fromtimestamp ts

/-- Except clauses of the first try block. -/
def usageFieldsHandler : Exc → PyErr
  | .keyError => .runtimeError "Missing usage field"
  | .valueError => .runtimeError "Invalid float for usage"
  | e => .uncaughtExc e

/-- Except clauses of the second try block. -/
def lastMonthHandler : Exc → PyErr
  | .keyError => .runtimeError "Missing \"usageMonths\" field"
  | .indexError => .runtimeError "No month data found"
  | e => .uncaughtExc e

/-- Except clauses of the third try block. -/
def dateRangeHandler : Exc → PyErr
  | .keyError => .runtimeError "Missing start and end date"
  | .valueError => .runtimeError "Failed to decode date range"
  | e => .uncaughtExc e

/-- Except clauses of the fourth try block. -/
def curDateHandler : Exc → PyErr
  | .keyError => .runtimeError "Missing start and end date"
  | .valueError => .runtimeError "Failed to decode current date"
  | e => .uncaughtExc e

/-- parse_usage_data from scripts/check-usage.py: the four try blocks in
sequence, assembling the parsed dictionary on success. -/
def parse_usage_data (usage_data : RawUsageRecord) :
    Except PyErr ParsedUsage :=
  match tryExcept (usageFieldsBlock usage_data) usageFieldsHandler with
  | .error e => .error e
  | .ok (used, total, units) =>
    match tryExcept (lastMonthBlock usage_data) lastMonthHandler with
    | .error e => .error e
    | .ok last_month =>
      match tryExcept (dateRangeBlock last_month) dateRangeHandler with
      | .error e => .error e
      | .ok (start_date, end_date) =>
        match tryExcept (curDateBlock usage_data) curDateHandler with
        | .error e => .error e
        | .ok cur_date =>
          .ok ⟨used, total, units, start_date, end_date, cur_date⟩

/-- Decidable equality for Except values, used to evaluate the embedding on
concrete inputs. -/
instance {ε α : Type} [DecidableEq ε] [DecidableEq α] :
    DecidableEq (Except ε α) := fun
  | .error e, .error e' =>
    if h : e = e' then .isTrue (by rw [h]) else .isFalse (by simp [h])
  | .error _, .ok _ => .isFalse (by simp)
  | .ok _, .error _ => .isFalse (by simp)
  | .ok a, .ok a' =>
    if h : a = a' then .isTrue (by rw [h]) else .isFalse (by simp [h])

/-- Python float division: raises ZeroDivisionError on a zero divisor. -/
def pyDiv (a b : ℚ) : Except PyErr ℚ :=
  if b = 0 then .error .zeroDivisionError else .ok (a / b)

/-- month_hours = (end_date - start_date).total_seconds() / 3600 + 24. -/
def month_hours (data : ParsedUsage) : ℚ :=
  (data.end_date - data.start_date) / 3600 + 24

/-- cur_hours = (cur_date - start_date).total_seconds() / 3600. -/
def cur_hours (data : ParsedUsage) : ℚ :=
  (data.cur_date - data.start_date) / 3600

/-- percent_elapsed = cur_hours / month_hours * 100. -/
def percent_elapsed (data : ParsedUsage) : Except PyErr ℚ :=
  match pyDiv (cur_hours data) (month_hours data) with
  | .error e => .error e
  | .ok q => .ok (q * 100)

/-- percent_bw = used / total * 100. -/
def percent_bw (data : ParsedUsage) : Except PyErr ℚ :=
  match pyDiv data.used data.total with
  | .error e => .error e
  | .ok q => .ok (q * 100)

/-- Python int(...) on a float: truncation toward zero, used when the
summary is printed. -/
def pyInt (q : ℚ) : ℤ :=
  if 0 ≤ q then ⌊q⌋ else ⌈q⌉

/-- How loading the configuration file goes: both keys read successfully,
the file was unreadable (OSError / IOError), or a key was absent
(KeyError). -/
inductive ConfigResult
  | ok (username password : String)
  | ioError
  | missingKey
deriving DecidableEq

/-- How the fetch goes: a raw record, or the RuntimeError raised by
get_usage_data. -/
inductive FetchResult
  | ok (r : RawUsageRecord)
  | fetchError (msg : String)
deriving DecidableEq

/-- The lines the script prints, kept structured rather than formatted. -/
inductive OutLine
  | failedConfigRead
  | missingUserPass
  | requesting
  | failedFetch (msg : String)
  | parsing
  | failedParse (msg : String)
  | summaryHeader
  | policyElapsed (percent : ℚ)
  | bandwidthConsumed (percent : ℚ) (used total : ℤ) (units : String)
deriving DecidableEq

/-- How the process terminates: sys.exit(code) or a normal return (exited),
or an exception escaping main (uncaught). -/
inductive Outcome
  | exited (code : ℤ)
  | uncaught (e : PyErr)
deriving DecidableEq

/-- The process exit status each outcome produces: the sys.exit argument,
or 1 when a traceback is printed for an uncaught exception. -/
def processExit : Outcome → ℤ
  | .exited c => c
  | .uncaught _ => 1

/-- main from scripts/check-usage.py, as a function of the outcome of the
configuration load and the outcome of the fetch.  Note the except clause
around parse_usage_data only prints: execution then falls through to
data[used] with the local variable data unbound, raising NameError. -/
def main' (cfg : ConfigResult) (fetch : FetchResult) :
    List OutLine × Outcome :=
  match cfg with
  | .ioError => ([.failedConfigRead], .exited 0)
  | .missingKey => ([.missingUserPass], .exited 0)
  | .ok _ _ =>
    match fetch with
    | .fetchError m => ([.requesting, .failedFetch m], .exited 0)
    | .ok raw_usage_data =>
      match parse_usage_data raw_usage_data with
      | .error (.runtimeError m) =>
        ([.requesting, .parsing, .failedParse m], .uncaught .nameError)
      | .error e => ([.requesting, .parsing], .uncaught e)
      | .ok data =>
        match percent_elapsed data with
        | .error e => ([.requesting, .parsing], .uncaught e)
        | .ok pe =>
          match percent_bw data with
          | .error e => ([.requesting, .parsing], .uncaught e)
          | .ok pb =>
            ([.requesting, .parsing, .summaryHeader, .policyElapsed pe,
              .bandwidthConsumed pb (pyInt data.used) (pyInt data.total)
                data.units],
              .exited 0)

/-- A raw record with no fields at all (the empty dictionary). -/
def emptyRecord : RawUsageRecord :=
  ⟨none, none, none, none, none⟩

/-- A month entry covering 01/01/2024 through 01/31/2024. -/
def goodMonth : MonthEntry :=
  ⟨some (.valid 1 1 2024), some (.valid 1 31 2024)⟩

/-- A fully valid raw record: 50 of 100 GB used, captured at midnight of
01/15/2024. -/
def goodRecord : RawUsageRecord :=
  ⟨some (.valid 50), some (.valid 100), some "GB",
    some ⟨some [goodMonth]⟩, some (.valid (dateSeconds 1 15 2024))⟩

/-- The parse of goodRecord. -/
def goodParsed : ParsedUsage :=
  ⟨50, 100, "GB", dateSeconds 1 1 2024, dateSeconds 1 31 2024,
    dateSeconds 1 15 2024⟩

/-- A raw record valid in every field but with used = 0 and total = 0. -/
def zeroRecord : RawUsageRecord :=
  ⟨some (.valid 0), some (.valid 0), some "GB",
    some ⟨some [goodMonth]⟩, some (.valid (dateSeconds 1 15 2024))⟩

/-- The parse of zeroRecord. -/
def zeroParsed : ParsedUsage :=
  ⟨0, 0, "GB", dateSeconds 1 1 2024, dateSeconds 1 31 2024,
    dateSeconds 1 15 2024⟩

/-- A record whose only present field is a non-convertible total. -/
def totalOnlyRecord : RawUsageRecord :=
  ⟨none, some (.invalid "abc"), none, none, none⟩

/-- A record whose used field is present but not convertible. -/
def usedInvalidRecord : RawUsageRecord :=
  ⟨some (.invalid "xyz"), none, none, none, none⟩

/-- A record with a convertible used field and a non-convertible total. -/
def totalInvalidRecord : RawUsageRecord :=
  ⟨some (.valid 1), some (.invalid "xyz"), none, none, none⟩

/-- A record with valid usage fields and an empty usageMonths list. -/
def emptyMonthsRecord : RawUsageRecord :=
  ⟨some (.valid 1), some (.valid 2), some "GB", some ⟨some []⟩, none⟩

/-- A record with an empty usageMonths list and no usage fields at all. -/
def emptyMonthsNoUsedRecord : RawUsageRecord :=
  ⟨none, none, none, some ⟨some []⟩, none⟩

/-- A record with valid usage fields and no top-level raw key. -/
def noRawRecord : RawUsageRecord :=
  ⟨some (.valid 1), some (.valid 2), some "GB", none, none⟩

/-- A record with valid usage fields whose raw dictionary lacks
usageMonths. -/
def noMonthsRecord : RawUsageRecord :=
  ⟨some (.valid 1), some (.valid 2), some "GB", some ⟨none⟩, none⟩

/-- goodRecord with the data_timestamp field removed. -/
def noTsRecord : RawUsageRecord :=
  ⟨some (.valid 50), some (.valid 100), some "GB",
    some ⟨some [goodMonth]⟩, none⟩

/-- goodRecord with the startDate of the last month entry removed. -/
def noStartRecord : RawUsageRecord :=
  ⟨some (.valid 50), some (.valid 100), some "GB",
    some ⟨some [⟨none, some (.valid 1 31 2024)⟩]⟩, some (.valid 0)⟩

/-- Modelled from the spec: whether a used / total value is missing or not
convertible to a floating-point number. -/
def numBad : Option RawNum → Bool
  | none => true
  | some (.invalid _) => true
  | some (.valid _) => false

/-- Modelled from the spec: whether a startDate / endDate value is missing
or not parseable as a month/day/year date. -/
def dateBad : Option DateStr → Bool
  | none => true
  | some (.invalid _) => true
  | some (.valid _ _ _) => false

/-- Modelled from the spec: whether the data_timestamp value is missing or
not convertible to a timestamp. -/
def tsBad : Option RawTs → Bool
  | none => true
  | some .invalid => true
  | some (.valid _) => false

/-- The usageMonths list reached through the top-level raw key, when both
are present. -/
def monthsField (r : RawUsageRecord) : Option (List MonthEntry) :=
  match r.raw with
  | none => none
  | some inner => inner.usageMonths

/-- Modelled from the spec precedence list: the used/total stage fails. -/
def stageUsedTotal (r : RawUsageRecord) : Bool :=
  numBad r.used || numBad r.total

/-- Modelled from the spec precedence list: the units stage fails. -/
def stageUnits (r : RawUsageRecord) : Bool :=
  r.units.isNone

/-- Modelled from the spec precedence list: the usageMonths-presence stage
fails. -/
def stageMonthsPresence (r : RawUsageRecord) : Bool :=
  (monthsField r).isNone

/-- Modelled from the spec precedence list: the usageMonths-non-empty stage
fails. -/
def stageMonthsEmpty (r : RawUsageRecord) : Bool :=
  match monthsField r with
  | some [] => true
  | _ => false

/-- Modelled from the spec precedence list: the date-fields stage fails
(the last month entry has a missing or unparseable date). -/
def stageDates (r : RawUsageRecord) : Bool :=
  match monthsField r with
  | none => false
  | some months =>
    match months.getLast? with
    | none => false
    | some lm => dateBad lm.startDate || dateBad lm.endDate

/-- Modelled from the spec precedence list: the timestamp stage fails. -/
def stageTimestamp (r : RawUsageRecord) : Bool :=
  tsBad r.data_timestamp

/-- Day number of 01/01/2024. -/
lemma daysFromCivil_jan1 : daysFromCivil 2024 1 1 = 19723 := by decide

/-- Day number of 01/15/2024. -/
lemma daysFromCivil_jan15 : daysFromCivil 2024 1 15 = 19737 := by decide

/-- Day number of 01/31/2024. -/
lemma daysFromCivil_jan31 : daysFromCivil 2024 1 31 = 19753 := by decide

/-- goodRecord parses to goodParsed. -/
lemma parse_goodRecord : parse_usage_data goodRecord = .ok goodParsed := rfl

/-- The empty record fails at the first usage field. -/
lemma parse_emptyRecord :
    parse_usage_data emptyRecord =
      .error (.runtimeError "Missing usage field") := rfl

/-- zeroRecord parses to zeroParsed. -/
lemma parse_zeroRecord : parse_usage_data zeroRecord = .ok zeroParsed := rfl

/-- Cycle length of the example cycle: 30 days in hours plus the fixed
24-hour adjustment. -/
lemma month_hours_goodParsed : month_hours goodParsed = 744 := by
  norm_num [month_hours, goodParsed, dateSeconds, daysFromCivil_jan1,
    daysFromCivil_jan31]

/-- Elapsed hours of the example capture instant. -/
lemma cur_hours_goodParsed : cur_hours goodParsed = 336 := by
  norm_num [cur_hours, goodParsed, dateSeconds, daysFromCivil_jan1,
    daysFromCivil_jan15]

/-- Elapsed percentage of the example. -/
lemma percent_elapsed_goodParsed :
    percent_elapsed goodParsed = .ok (1400 / 31) := by
  rw [percent_elapsed, cur_hours_goodParsed, month_hours_goodParsed]
  norm_num [pyDiv]

/-- Bandwidth percentage of the example. -/
lemma percent_bw_goodParsed : percent_bw goodParsed = .ok 50 := by
  norm_num [percent_bw, goodParsed, pyDiv]

/-- zeroParsed has the same cycle dates as goodParsed, so the elapsed
percentage still computes. -/
lemma percent_elapsed_zeroParsed :
    percent_elapsed zeroParsed = .ok (1400 / 31) := by
  have h1 : cur_hours zeroParsed = 336 := by
    norm_num [cur_hours, zeroParsed, dateSeconds, daysFromCivil_jan1,
      daysFromCivil_jan15]
  have h2 : month_hours zeroParsed = 744 := by
    norm_num [month_hours, zeroParsed, dateSeconds, daysFromCivil_jan1,
      daysFromCivil_jan31]
  rw [percent_elapsed, h1, h2]
  norm_num [pyDiv]

/-- Dividing zero used by zero total raises ZeroDivisionError. -/
lemma percent_bw_zeroParsed :
    percent_bw zeroParsed = .error .zeroDivisionError := by
  norm_num [percent_bw, zeroParsed, pyDiv]

/-- A used / total value that is not bad is a convertible one. -/
lemma numBad_eq_false {o : Option RawNum} (h : numBad o = false) :
    ∃ q, o = some (RawNum.valid q) := by
  cases o with
  | none => simp [numBad] at h
  | some v =>
    cases v with
    | valid q => exact ⟨q, rfl⟩
    | invalid s => simp [numBad] at h

/-- A date value that is not bad is a parseable one. -/
lemma dateBad_eq_false {o : Option DateStr} (h : dateBad o = false) :
    ∃ m d y, o = some (DateStr.valid m d y) := by
  cases o with
  | none => simp [dateBad] at h
  | some v =>
    cases v with
    | valid m d y => exact ⟨m, d, y, rfl⟩
    | invalid s => simp [dateBad] at h

/-- A timestamp value that is not bad is a convertible one. -/
lemma tsBad_eq_false {o : Option RawTs} (h : tsBad o = false) :
    ∃ s, o = some (RawTs.valid s) := by
  cases o with
  | none => simp [tsBad] at h
  | some v =>
    cases v with
    | valid s => exact ⟨s, rfl⟩
    | invalid => simp [tsBad] at h

/-- Inversion of the first try block on success. -/
lemma usageFieldsBlock_ok_inv {r : RawUsageRecord} {a b : ℚ} {c : String}
    (h : usageFieldsBlock r = .ok (a, b, c)) :
    (∃ v, r.used = some v ∧ pyFloat v = .ok a) ∧
    (∃ v, r.total = some v ∧ pyFloat v = .ok b) ∧
    r.units = some c := by
  obtain ⟨u, t, un, rw, ts⟩ := r
  cases u with
  | none => simp [usageFieldsBlock] at h
  | some uv =>
    cases uv with
    | invalid s => simp [usageFieldsBlock, pyFloat] at h
    | valid qu =>
      cases t with
      | none => simp [usageFieldsBlock, pyFloat] at h
      | some tv =>
        cases tv with
        | invalid s => simp [usageFieldsBlock, pyFloat] at h
        | valid qt =>
          cases un with
          | none => simp [usageFieldsBlock, pyFloat] at h
          | some units =>
            simp [usageFieldsBlock, pyFloat] at h
            obtain ⟨h1, h2, h3⟩ := h
            exact ⟨⟨_, rfl, by rw [h1]; rfl⟩, ⟨_, rfl, by rw [h2]; rfl⟩,
              by rw [h3]⟩

/-- Inversion of the second try block on success. -/
lemma lastMonthBlock_ok_inv {r : RawUsageRecord} {lm : MonthEntry}
    (h : lastMonthBlock r = .ok lm) :
    ∃ inner months, r.raw = some inner ∧ inner.usageMonths = some months ∧
      months.getLast? = some lm := by
  obtain ⟨u, t, un, rw, ts⟩ := r
  cases rw with
  | none => simp [lastMonthBlock] at h
  | some inner =>
    cases hm : inner.usageMonths with
    | none => simp [lastMonthBlock, hm] at h
    | some months =>
      refine ⟨inner, months, rfl, hm, ?_⟩
      cases hl : months.getLast? with
      | none => simp [lastMonthBlock, lastElem, hm, hl] at h
      | some x => simp [lastMonthBlock, lastElem, hm, hl] at h; rw [h]

/-- Inversion of the third try block on success. -/
lemma dateRangeBlock_ok_inv {lm : MonthEntry} {s en : ℚ}
    (h : dateRangeBlock lm = .ok (s, en)) :
    (∃ ds, lm.startDate = some ds ∧ strptime ds = .ok s) ∧
    (∃ ds, lm.endDate = some ds ∧ strptime ds = .ok en) := by
  obtain ⟨sd, ed⟩ := lm
  cases sd with
  | none => simp [dateRangeBlock] at h
  | some sv =>
    cases sv with
    | invalid str => simp [dateRangeBlock, strptime] at h
    | valid m1 d1 y1 =>
      cases ed with
      | none => simp [dateRangeBlock, strptime] at h
      | some ev =>
        cases ev with
        | invalid str => simp [dateRangeBlock, strptime] at h
        | valid m2 d2 y2 =>
          simp [dateRangeBlock, strptime] at h
          obtain ⟨h1, h2⟩ := h
          exact ⟨⟨_, rfl, by simp [strptime, h1]⟩,
            ⟨_, rfl, by simp [strptime, h2]⟩⟩

/-- Inversion of the fourth try block on success. -/
lemma curDateBlock_ok_inv {r : RawUsageRecord} {q : ℚ}
    (h : curDateBlock r = .ok q) :
    ∃ ts, r.data_timestamp = some ts ∧ fromtimestamp ts = .ok q := by
  obtain ⟨u, t, un, rw, ts⟩ := r
  cases ts with
  | none => simp [curDateBlock] at h
  | some tv =>
    cases tv with
    | valid s =>
      simp [curDateBlock, fromtimestamp] at h
      subst h
      exact ⟨_, rfl, rfl⟩
    | invalid => simp [curDateBlock, fromtimestamp] at h

/-- A try block that returns normally had a body that returned that value. -/
lemma tryExcept_ok_inv {α : Type} {body : Except Exc α} {handler : Exc → PyErr}
    {a : α} (h : tryExcept body handler = .ok a) : body = .ok a := by
  cases hb : body with
  | error e => simp [tryExcept, hb] at h
  | ok v =>
    simp [tryExcept, hb] at h
    subst h
    rfl

/-- Inversion of parse_usage_data on success: every try block succeeded and
the parsed dictionary collects their results. -/
lemma parse_ok_inv {r : RawUsageRecord} {p : ParsedUsage}
    (h : parse_usage_data r = .ok p) :
    usageFieldsBlock r = .ok (p.used, p.total, p.units) ∧
    (∃ lm, lastMonthBlock r = .ok lm ∧
      dateRangeBlock lm = .ok (p.start_date, p.end_date)) ∧
    curDateBlock r = .ok p.cur_date := by
  rw [parse_usage_data] at h
  cases h1 : tryExcept (usageFieldsBlock r) usageFieldsHandler with
  | error e => simp only [h1] at h; exact Except.noConfusion h
  | ok v1 =>
    obtain ⟨a, b, c⟩ := v1
    simp only [h1] at h
    cases h2 : tryExcept (lastMonthBlock r) lastMonthHandler with
    | error e => simp only [h2] at h; exact Except.noConfusion h
    | ok lm =>
      simp only [h2] at h
      cases h3 : tryExcept (dateRangeBlock lm) dateRangeHandler with
      | error e => simp only [h3] at h; exact Except.noConfusion h
      | ok v3 =>
        obtain ⟨s, en⟩ := v3
        simp only [h3] at h
        cases h4 : tryExcept (curDateBlock r) curDateHandler with
        | error e => simp only [h4] at h; exact Except.noConfusion h
        | ok cur =>
          simp only [h4] at h
          cases h
          exact ⟨tryExcept_ok_inv h1, ⟨lm, tryExcept_ok_inv h2,
            tryExcept_ok_inv h3⟩, tryExcept_ok_inv h4⟩

/-- parse_usage_data fails through the first set of except clauses when the
first try block raises. -/
lemma parse_usageFields_err {r : RawUsageRecord} {e : Exc}
    (h : usageFieldsBlock r = .error e) :
    parse_usage_data r = .error (usageFieldsHandler e) := by
  simp [parse_usage_data, tryExcept, h]

/-- parse_usage_data fails through the second set of except clauses when
the first block succeeds and the second raises. -/
lemma parse_lastMonth_err {r : RawUsageRecord} {v : ℚ × ℚ × String} {e : Exc}
    (h1 : usageFieldsBlock r = .ok v) (h2 : lastMonthBlock r = .error e) :
    parse_usage_data r = .error (lastMonthHandler e) := by
  obtain ⟨a, b, c⟩ := v
  simp [parse_usage_data, tryExcept, h1, h2]

/-- parse_usage_data fails through the third set of except clauses when the
first two blocks succeed and the third raises. -/
lemma parse_dateRange_err {r : RawUsageRecord} {v : ℚ × ℚ × String}
    {lm : MonthEntry} {e : Exc}
    (h1 : usageFieldsBlock r = .ok v) (h2 : lastMonthBlock r = .ok lm)
    (h3 : dateRangeBlock lm = .error e) :
    parse_usage_data r = .error (dateRangeHandler e) := by
  obtain ⟨a, b, c⟩ := v
  simp [parse_usage_data, tryExcept, h1, h2, h3]

/-- parse_usage_data fails through the fourth set of except clauses when
the first three blocks succeed and the fourth raises. -/
lemma parse_curDate_err {r : RawUsageRecord} {v : ℚ × ℚ × String}
    {lm : MonthEntry} {d : ℚ × ℚ} {e : Exc}
    (h1 : usageFieldsBlock r = .ok v) (h2 : lastMonthBlock r = .ok lm)
    (h3 : dateRangeBlock lm = .ok d) (h4 : curDateBlock r = .error e) :
    parse_usage_data r = .error (curDateHandler e) := by
  obtain ⟨a, b, c⟩ := v
  obtain ⟨s, en⟩ := d
  simp [parse_usage_data, tryExcept, h1, h2, h3, h4]

/-- parse_usage_data succeeds when all four try blocks do. -/
lemma parse_ok_of_blocks {r : RawUsageRecord} {a b : ℚ} {c : String}
    {lm : MonthEntry} {s en cur : ℚ}
    (h1 : usageFieldsBlock r = .ok (a, b, c)) (h2 : lastMonthBlock r = .ok lm)
    (h3 : dateRangeBlock lm = .ok (s, en)) (h4 : curDateBlock r = .ok cur) :
    parse_usage_data r = .ok ⟨a, b, c, s, en, cur⟩ := by
  simp [parse_usage_data, tryExcept, h1, h2, h3, h4]

/-- Claim C1: the script is meant to catch every post-configuration error
and turn it into a printed line, with no exception escaping main and no
summary computed from undefined parsed data.  The code violates this: on a
parse failure it prints the error and then reads the unbound local data, so
a NameError escapes main uncaught.  Evaluation at a failing input (the
empty record). -/
theorem C1_parse_error_escapes_main :
    main' (ConfigResult.ok "user" "pass") (FetchResult.ok emptyRecord) =
      ([OutLine.requesting, OutLine.parsing,
        OutLine.failedParse "Missing usage field"],
        Outcome.uncaught PyErr.nameError) ∧
    processExit (main' (ConfigResult.ok "user" "pass")
      (FetchResult.ok emptyRecord)).2 = 1 :=
  ⟨rfl, rfl⟩

/-- Claim C2 counterexample: the exit status is not 0 on every path; on the
parse-error path the uncaught NameError terminates the process with
status 1. -/
theorem C2_exit_zero_counterexample :
    processExit (main' (ConfigResult.ok "user" "pass")
      (FetchResult.ok emptyRecord)).2 ≠ 0 := by
  decide

/-- Claim C2 (amended): the exit status is 0 on the success path, the
configuration-error paths and the fetch-error path, but on the parse-error
path the process exits with status 1 because of the uncaught NameError. -/
theorem C2_exit_status (u p : String) (f : FetchResult) (r : RawUsageRecord) :
    processExit (main' ConfigResult.ioError f).2 = 0 ∧
    processExit (main' ConfigResult.missingKey f).2 = 0 ∧
    (∀ m, processExit
      (main' (ConfigResult.ok u p) (FetchResult.fetchError m)).2 = 0) ∧
    (∀ d pe pb, parse_usage_data r = .ok d → percent_elapsed d = .ok pe →
      percent_bw d = .ok pb →
      processExit (main' (ConfigResult.ok u p) (FetchResult.ok r)).2 = 0) ∧
    (∀ m, parse_usage_data r = .error (.runtimeError m) →
      processExit (main' (ConfigResult.ok u p) (FetchResult.ok r)).2 = 1) := by
  refine ⟨rfl, rfl, fun m => rfl, ?_, ?_⟩
  · intro d pe pb hd hpe hpb
    simp [main', hd, hpe, hpb, processExit]
  · intro m hm
    simp [main', hm, processExit]

/-- Witness for C2_exit_status at concrete inputs: a fetch failure exits 0,
a fully valid record exits 0, and the empty record exits 1. -/
theorem C2_exit_status_witness :
    processExit (main' ConfigResult.ioError (FetchResult.fetchError "x")).2
      = 0 ∧
    processExit (main' (ConfigResult.ok "u" "p")
      (FetchResult.ok goodRecord)).2 = 0 ∧
    processExit (main' (ConfigResult.ok "u" "p")
      (FetchResult.ok emptyRecord)).2 = 1 :=
  ⟨(C2_exit_status "u" "p" (FetchResult.fetchError "x") goodRecord).1,
   (C2_exit_status "u" "p" (FetchResult.fetchError "x") goodRecord).2.2.2.1
     goodParsed (1400 / 31) 50 parse_goodRecord percent_elapsed_goodParsed
     percent_bw_goodParsed,
   (C2_exit_status "u" "p" (FetchResult.fetchError "x") emptyRecord).2.2.2.2
     "Missing usage field" parse_emptyRecord⟩

/-- Claim C3: the calculator computes the cycle length as the end-to-start
difference in hours plus 24, the elapsed hours without clamping, and the
two percentages as stated; on the example cycle 01/01/2024 to 01/31/2024
captured at midnight of 01/15/2024 with 50 of 100 used, the cycle length is
744 hours, the elapsed time 336 hours, the elapsed percentage 1400/31
(which is 45.16 to two decimals) and the bandwidth percentage 50. -/
theorem C3_percentage_calculator :
    (∀ d : ParsedUsage,
      month_hours d = (d.end_date - d.start_date) / 3600 + 24) ∧
    (∀ d : ParsedUsage, cur_hours d = (d.cur_date - d.start_date) / 3600) ∧
    (∀ d : ParsedUsage, month_hours d ≠ 0 →
      percent_elapsed d = .ok (cur_hours d / month_hours d * 100)) ∧
    (∀ d : ParsedUsage, d.total ≠ 0 →
      percent_bw d = .ok (d.used / d.total * 100)) ∧
    month_hours goodParsed = 744 ∧
    cur_hours goodParsed = 336 ∧
    percent_elapsed goodParsed = .ok (1400 / 31) ∧
    |(1400 / 31 : ℚ) - 4516 / 100| < 5 / 1000 ∧
    percent_bw goodParsed = .ok 50 := by
  refine ⟨fun d => rfl, fun d => rfl, ?_, ?_, month_hours_goodParsed,
    cur_hours_goodParsed, percent_elapsed_goodParsed,
    by rw [abs_sub_lt_iff]; constructor <;> norm_num,
    percent_bw_goodParsed⟩
  · intro d h
    simp [percent_elapsed, pyDiv, h]
  · intro d h
    simp [percent_bw, pyDiv, h]

/-- Witness for C3_percentage_calculator: the two division formulas applied
to the example record, whose cycle length and total are nonzero. -/
theorem C3_percentage_calculator_witness :
    percent_elapsed goodParsed =
      .ok (cur_hours goodParsed / month_hours goodParsed * 100) ∧
    percent_bw goodParsed =
      .ok (goodParsed.used / goodParsed.total * 100) :=
  ⟨C3_percentage_calculator.2.2.1 goodParsed
     (by rw [month_hours_goodParsed]; norm_num),
   C3_percentage_calculator.2.2.2.1 goodParsed (by norm_num [goodParsed])⟩

/-- Claim C4: whenever the parser succeeds, used and total are the float
conversions of the raw used and total values, units is the raw units value,
the cycle dates are the strptime parses of the startDate and endDate of the
last usageMonths element, and the capture instant comes from
data_timestamp. -/
theorem C4_parse_success_fields (r : RawUsageRecord) (p : ParsedUsage)
    (h : parse_usage_data r = .ok p) :
    (∃ v, r.used = some v ∧ pyFloat v = .ok p.used) ∧
    (∃ v, r.total = some v ∧ pyFloat v = .ok p.total) ∧
    r.units = some p.units ∧
    (∃ inner months lm, r.raw = some inner ∧
      inner.usageMonths = some months ∧ months.getLast? = some lm ∧
      (∃ ds, lm.startDate = some ds ∧ strptime ds = .ok p.start_date) ∧
      (∃ ds, lm.endDate = some ds ∧ strptime ds = .ok p.end_date)) ∧
    (∃ ts, r.data_timestamp = some ts ∧ fromtimestamp ts = .ok p.cur_date) := by
  obtain ⟨hb1, ⟨lm, hb2, hb3⟩, hb4⟩ := parse_ok_inv h
  obtain ⟨hu, ht, hun⟩ := usageFieldsBlock_ok_inv hb1
  obtain ⟨inner, months, hraw, hm, hlast⟩ := lastMonthBlock_ok_inv hb2
  obtain ⟨hsd, hed⟩ := dateRangeBlock_ok_inv hb3
  obtain ⟨ts, hts, hfts⟩ := curDateBlock_ok_inv hb4
  exact ⟨hu, ht, hun, ⟨inner, months, lm, hraw, hm, hlast, hsd, hed⟩,
    ⟨ts, hts, hfts⟩⟩

/-- Witness for C4_parse_success_fields at the fully valid record. -/
theorem C4_parse_success_fields_witness :
    (∃ v, goodRecord.used = some v ∧ pyFloat v = .ok goodParsed.used) ∧
    (∃ v, goodRecord.total = some v ∧ pyFloat v = .ok goodParsed.total) ∧
    goodRecord.units = some goodParsed.units ∧
    (∃ inner months lm, goodRecord.raw = some inner ∧
      inner.usageMonths = some months ∧ months.getLast? = some lm ∧
      (∃ ds, lm.startDate = some ds ∧
        strptime ds = .ok goodParsed.start_date) ∧
      (∃ ds, lm.endDate = some ds ∧
        strptime ds = .ok goodParsed.end_date)) ∧
    (∃ ts, goodRecord.data_timestamp = some ts ∧
      fromtimestamp ts = .ok goodParsed.cur_date) :=
  C4_parse_success_fields goodRecord goodParsed parse_goodRecord

/-- Claim C5: the spec requires the bandwidth percentage computation on
used = 0, total = 0 not to crash the process.  The code violates this: the
division raises ZeroDivisionError, which nothing catches, so the process
aborts with status 1.  Evaluation at the failing input. -/
theorem C5_zero_total_crashes :
    parse_usage_data zeroRecord = .ok zeroParsed ∧
    percent_bw zeroParsed = .error PyErr.zeroDivisionError ∧
    (main' (ConfigResult.ok "user" "pass") (FetchResult.ok zeroRecord)).2 =
      Outcome.uncaught PyErr.zeroDivisionError ∧
    processExit (main' (ConfigResult.ok "user" "pass")
      (FetchResult.ok zeroRecord)).2 = 1 := by
  refine ⟨parse_zeroRecord, percent_bw_zeroParsed, ?_, ?_⟩
  · simp [main', parse_zeroRecord, percent_elapsed_zeroParsed,
      percent_bw_zeroParsed]
  · simp [main', parse_zeroRecord, percent_elapsed_zeroParsed,
      percent_bw_zeroParsed, processExit]

/-- A nonempty list has a last element. -/
lemma getLast_exists {α : Type} (x : α) (xs : List α) :
    ∃ lm, (x :: xs).getLast? = some lm := by
  induction xs generalizing x with
  | nil => exact ⟨x, rfl⟩
  | cons y ys ih =>
    obtain ⟨lm, hl⟩ := ih y
    exact ⟨lm, by rw [List.getLast?_cons_cons]; exact hl⟩

/-- When the used/total stage passes, both values are convertible. -/
lemma stageUsedTotal_false {r : RawUsageRecord}
    (h : stageUsedTotal r = false) :
    (∃ q, r.used = some (RawNum.valid q)) ∧
    ∃ q, r.total = some (RawNum.valid q) := by
  simp only [stageUsedTotal] at h
  obtain ⟨h1, h2⟩ := Bool.or_eq_false_iff.mp h
  exact ⟨numBad_eq_false h1, numBad_eq_false h2⟩

/-- When the units stage passes, the units value is present. -/
lemma stageUnits_false {r : RawUsageRecord} (h : stageUnits r = false) :
    ∃ s, r.units = some s := by
  cases hu : r.units with
  | none => rw [stageUnits, hu] at h; cases h
  | some s => exact ⟨s, rfl⟩

/-- A present usageMonths list is reached through a present raw key. -/
lemma monthsField_some {r : RawUsageRecord} {months : List MonthEntry}
    (h : monthsField r = some months) :
    ∃ inner, r.raw = some inner ∧ inner.usageMonths = some months := by
  cases hr : r.raw with
  | none => simp [monthsField, hr] at h
  | some inner => exact ⟨inner, rfl, by simpa [monthsField, hr] using h⟩

/-- When the usageMonths-presence stage passes, the list is present. -/
lemma stageMonthsPresence_false {r : RawUsageRecord}
    (h : stageMonthsPresence r = false) :
    ∃ months, monthsField r = some months := by
  cases hm : monthsField r with
  | none => rw [stageMonthsPresence, hm] at h; cases h
  | some months => exact ⟨months, rfl⟩

/-- When the non-empty stage passes on a present list, it has a last
element. -/
lemma stageMonthsEmpty_false {r : RawUsageRecord} {months : List MonthEntry}
    (hm : monthsField r = some months) (h : stageMonthsEmpty r = false) :
    ∃ lm, months.getLast? = some lm := by
  cases months with
  | nil => rw [stageMonthsEmpty, hm] at h; cases h
  | cons x xs => exact getLast_exists x xs

/-- When the date-fields stage passes, both dates of the last entry
parse. -/
lemma stageDates_false {r : RawUsageRecord} {months : List MonthEntry}
    {lm : MonthEntry} (hm : monthsField r = some months)
    (hl : months.getLast? = some lm) (h : stageDates r = false) :
    (∃ m d y, lm.startDate = some (DateStr.valid m d y)) ∧
    ∃ m d y, lm.endDate = some (DateStr.valid m d y) := by
  simp only [stageDates, hm, hl] at h
  obtain ⟨h1, h2⟩ := Bool.or_eq_false_iff.mp h
  exact ⟨dateBad_eq_false h1, dateBad_eq_false h2⟩

/-- Claim C6: when several fields are invalid, the reported failure is that
of the earliest failing stage in the fixed precedence used/total, units,
usageMonths presence, usageMonths non-empty, date fields, timestamp; when
no stage fails the parser succeeds.  Each stage is paired with the messages
it can surface. -/
theorem C6_failure_precedence (r : RawUsageRecord) :
    (stageUsedTotal r = true →
      parse_usage_data r = .error (.runtimeError "Missing usage field") ∨
      parse_usage_data r = .error (.runtimeError "Invalid float for usage")) ∧
    (stageUsedTotal r = false → stageUnits r = true →
      parse_usage_data r = .error (.runtimeError "Missing usage field")) ∧
    (stageUsedTotal r = false → stageUnits r = false →
      stageMonthsPresence r = true →
      parse_usage_data r =
        .error (.runtimeError "Missing \"usageMonths\" field")) ∧
    (stageUsedTotal r = false → stageUnits r = false →
      stageMonthsPresence r = false → stageMonthsEmpty r = true →
      parse_usage_data r = .error (.runtimeError "No month data found")) ∧
    (stageUsedTotal r = false → stageUnits r = false →
      stageMonthsPresence r = false → stageMonthsEmpty r = false →
      stageDates r = true →
      parse_usage_data r =
        .error (.runtimeError "Missing start and end date") ∨
      parse_usage_data r =
        .error (.runtimeError "Failed to decode date range")) ∧
    (stageUsedTotal r = false → stageUnits r = false →
      stageMonthsPresence r = false → stageMonthsEmpty r = false →
      stageDates r = false → stageTimestamp r = true →
      parse_usage_data r =
        .error (.runtimeError "Missing start and end date") ∨
      parse_usage_data r =
        .error (.runtimeError "Failed to decode current date")) ∧
    (stageUsedTotal r = false → stageUnits r = false →
      stageMonthsPresence r = false → stageMonthsEmpty r = false →
      stageDates r = false → stageTimestamp r = false →
      ∃ p, parse_usage_data r = .ok p) := by
  refine ⟨?_, ?_, ?_, ?_, ?_, ?_, ?_⟩
  · -- used/total stage fails
    intro h1
    simp only [stageUsedTotal] at h1
    cases hu : r.used with
    | none =>
      have hb : usageFieldsBlock r = .error Exc.keyError := by
        simp [usageFieldsBlock, hu]
      exact Or.inl (parse_usageFields_err hb)
    | some uv =>
      cases uv with
      | invalid s =>
        have hb : usageFieldsBlock r = .error Exc.valueError := by
          simp [usageFieldsBlock, hu, pyFloat]
        exact Or.inr (parse_usageFields_err hb)
      | valid q =>
        have h1t : numBad r.total = true := by
          rw [Bool.or_eq_true] at h1
          rcases h1 with h | h
          · rw [hu] at h; simp [numBad] at h
          · exact h
        cases ht : r.total with
        | none =>
          have hb : usageFieldsBlock r = .error Exc.keyError := by
            simp [usageFieldsBlock, hu, ht, pyFloat]
          exact Or.inl (parse_usageFields_err hb)
        | some tv =>
          cases tv with
          | invalid s =>
            have hb : usageFieldsBlock r = .error Exc.valueError := by
              simp [usageFieldsBlock, hu, ht, pyFloat]
            exact Or.inr (parse_usageFields_err hb)
          | valid q2 => rw [ht] at h1t; simp [numBad] at h1t
  · -- units stage fails first
    intro h1 h2
    obtain ⟨⟨qu, hu⟩, ⟨qt, ht⟩⟩ := stageUsedTotal_false h1
    cases hun : r.units with
    | none =>
      have hb : usageFieldsBlock r = .error Exc.keyError := by
        simp [usageFieldsBlock, hu, ht, hun, pyFloat]
      exact parse_usageFields_err hb
    | some s => rw [stageUnits, hun] at h2; cases h2
  · -- usageMonths-presence stage fails first
    intro h1 h2 h3
    obtain ⟨⟨qu, hu⟩, ⟨qt, ht⟩⟩ := stageUsedTotal_false h1
    obtain ⟨un, hun⟩ := stageUnits_false h2
    have hb1 : usageFieldsBlock r = .ok (qu, qt, un) := by
      simp [usageFieldsBlock, hu, ht, hun, pyFloat]
    cases hraw : r.raw with
    | none =>
      have hb2 : lastMonthBlock r = .error Exc.keyError := by
        simp [lastMonthBlock, hraw]
      exact parse_lastMonth_err hb1 hb2
    | some inner =>
      cases hm : inner.usageMonths with
      | none =>
        have hb2 : lastMonthBlock r = .error Exc.keyError := by
          simp [lastMonthBlock, hraw, hm]
        exact parse_lastMonth_err hb1 hb2
      | some months =>
        simp [stageMonthsPresence, monthsField, hraw, hm] at h3
  · -- empty-usageMonths stage fails first
    intro h1 h2 h3 h4
    obtain ⟨⟨qu, hu⟩, ⟨qt, ht⟩⟩ := stageUsedTotal_false h1
    obtain ⟨un, hun⟩ := stageUnits_false h2
    obtain ⟨months, hm⟩ := stageMonthsPresence_false h3
    obtain ⟨inner, hraw, hm2⟩ := monthsField_some hm
    have hb1 : usageFieldsBlock r = .ok (qu, qt, un) := by
      simp [usageFieldsBlock, hu, ht, hun, pyFloat]
    cases months with
    | nil =>
      have hb2 : lastMonthBlock r = .error Exc.indexError := by
        simp [lastMonthBlock, hraw, hm2, lastElem]
      exact parse_lastMonth_err hb1 hb2
    | cons x xs => rw [stageMonthsEmpty, hm] at h4; cases h4
  · -- date-fields stage fails first
    intro h1 h2 h3 h4 h5
    obtain ⟨⟨qu, hu⟩, ⟨qt, ht⟩⟩ := stageUsedTotal_false h1
    obtain ⟨un, hun⟩ := stageUnits_false h2
    obtain ⟨months, hm⟩ := stageMonthsPresence_false h3
    obtain ⟨inner, hraw, hm2⟩ := monthsField_some hm
    obtain ⟨lm, hl⟩ := stageMonthsEmpty_false hm h4
    have hb1 : usageFieldsBlock r = .ok (qu, qt, un) := by
      simp [usageFieldsBlock, hu, ht, hun, pyFloat]
    have hb2 : lastMonthBlock r = .ok lm := by
      simp [lastMonthBlock, hraw, hm2, lastElem, hl]
    simp only [stageDates, hm, hl] at h5
    cases hsd : lm.startDate with
    | none =>
      have hb3 : dateRangeBlock lm = .error Exc.keyError := by
        simp [dateRangeBlock, hsd]
      exact Or.inl (parse_dateRange_err hb1 hb2 hb3)
    | some sv =>
      cases sv with
      | invalid s =>
        have hb3 : dateRangeBlock lm = .error Exc.valueError := by
          simp [dateRangeBlock, hsd, strptime]
        exact Or.inr (parse_dateRange_err hb1 hb2 hb3)
      | valid m1 d1 y1 =>
        have h5e : dateBad lm.endDate = true := by
          rw [Bool.or_eq_true] at h5
          rcases h5 with h | h
          · rw [hsd] at h; simp [dateBad] at h
          · exact h
        cases hed : lm.endDate with
        | none =>
          have hb3 : dateRangeBlock lm = .error Exc.keyError := by
            simp [dateRangeBlock, hsd, hed, strptime]
          exact Or.inl (parse_dateRange_err hb1 hb2 hb3)
        | some ev =>
          cases ev with
          | invalid s =>
            have hb3 : dateRangeBlock lm = .error Exc.valueError := by
              simp [dateRangeBlock, hsd, hed, strptime]
            exact Or.inr (parse_dateRange_err hb1 hb2 hb3)
          | valid m2 d2 y2 => rw [hed] at h5e; simp [dateBad] at h5e
  · -- timestamp stage fails first
    intro h1 h2 h3 h4 h5 h6
    obtain ⟨⟨qu, hu⟩, ⟨qt, ht⟩⟩ := stageUsedTotal_false h1
    obtain ⟨un, hun⟩ := stageUnits_false h2
    obtain ⟨months, hm⟩ := stageMonthsPresence_false h3
    obtain ⟨inner, hraw, hm2⟩ := monthsField_some hm
    obtain ⟨lm, hl⟩ := stageMonthsEmpty_false hm h4
    obtain ⟨⟨m1, d1, y1, hsd⟩, ⟨m2, d2, y2, hed⟩⟩ := stageDates_false hm hl h5
    have hb1 : usageFieldsBlock r = .ok (qu, qt, un) := by
      simp [usageFieldsBlock, hu, ht, hun, pyFloat]
    have hb2 : lastMonthBlock r = .ok lm := by
      simp [lastMonthBlock, hraw, hm2, lastElem, hl]
    have hb3 : dateRangeBlock lm =
        .ok (dateSeconds m1 d1 y1, dateSeconds m2 d2 y2) := by
      simp [dateRangeBlock, hsd, hed, strptime]
    cases hts : r.data_timestamp with
    | none =>
      have hb4 : curDateBlock r = .error Exc.keyError := by
        simp [curDateBlock, hts]
      exact Or.inl (parse_curDate_err hb1 hb2 hb3 hb4)
    | some tv =>
      cases tv with
      | invalid =>
        have hb4 : curDateBlock r = .error Exc.valueError := by
          simp [curDateBlock, hts, fromtimestamp]
        exact Or.inr (parse_curDate_err hb1 hb2 hb3 hb4)
      | valid sec => rw [stageTimestamp, hts] at h6; simp [tsBad] at h6
  · -- no stage fails: success
    intro h1 h2 h3 h4 h5 h6
    obtain ⟨⟨qu, hu⟩, ⟨qt, ht⟩⟩ := stageUsedTotal_false h1
    obtain ⟨un, hun⟩ := stageUnits_false h2
    obtain ⟨months, hm⟩ := stageMonthsPresence_false h3
    obtain ⟨inner, hraw, hm2⟩ := monthsField_some hm
    obtain ⟨lm, hl⟩ := stageMonthsEmpty_false hm h4
    obtain ⟨⟨m1, d1, y1, hsd⟩, ⟨m2, d2, y2, hed⟩⟩ := stageDates_false hm hl h5
    obtain ⟨sec, hts⟩ := tsBad_eq_false (by rw [stageTimestamp] at h6; exact h6)
    have hb1 : usageFieldsBlock r = .ok (qu, qt, un) := by
      simp [usageFieldsBlock, hu, ht, hun, pyFloat]
    have hb2 : lastMonthBlock r = .ok lm := by
      simp [lastMonthBlock, hraw, hm2, lastElem, hl]
    have hb3 : dateRangeBlock lm =
        .ok (dateSeconds m1 d1 y1, dateSeconds m2 d2 y2) := by
      simp [dateRangeBlock, hsd, hed, strptime]
    have hb4 : curDateBlock r = .ok sec := by
      simp [curDateBlock, hts, fromtimestamp]
    exact ⟨_, parse_ok_of_blocks hb1 hb2 hb3 hb4⟩

/-- Witness for C6_failure_precedence: the empty record fails at the first
stage with a first-stage message; the fully valid record passes every stage
and parses. -/
theorem C6_failure_precedence_witness :
    (parse_usage_data emptyRecord =
        .error (.runtimeError "Missing usage field") ∨
      parse_usage_data emptyRecord =
        .error (.runtimeError "Invalid float for usage")) ∧
    ∃ p, parse_usage_data goodRecord = .ok p :=
  ⟨(C6_failure_precedence emptyRecord).1 rfl,
   (C6_failure_precedence goodRecord).2.2.2.2.2.2 rfl rfl rfl rfl rfl rfl⟩

/-- Claim C7: a record passing every earlier parsing stage whose
data_timestamp is absent fails with the message reused from the
missing-date case, and a record passing the stages up to the date fields
whose last entry lacks startDate fails with that same message. -/
theorem C7_missing_timestamp_message :
    (∀ (r : RawUsageRecord) (qu qt : ℚ) (un : String) (inner : RawInner)
      (months : List MonthEntry) (lm : MonthEntry) (m1 d1 y1 m2 d2 y2 : ℤ),
      r.used = some (RawNum.valid qu) → r.total = some (RawNum.valid qt) →
      r.units = some un → r.raw = some inner →
      inner.usageMonths = some months → months.getLast? = some lm →
      lm.startDate = some (DateStr.valid m1 d1 y1) →
      lm.endDate = some (DateStr.valid m2 d2 y2) →
      r.data_timestamp = none →
      parse_usage_data r =
        .error (.runtimeError "Missing start and end date")) ∧
    (∀ (r : RawUsageRecord) (qu qt : ℚ) (un : String) (inner : RawInner)
      (months : List MonthEntry) (lm : MonthEntry),
      r.used = some (RawNum.valid qu) → r.total = some (RawNum.valid qt) →
      r.units = some un → r.raw = some inner →
      inner.usageMonths = some months → months.getLast? = some lm →
      lm.startDate = none →
      parse_usage_data r =
        .error (.runtimeError "Missing start and end date")) := by
  constructor
  · intro r qu qt un inner months lm m1 d1 y1 m2 d2 y2 hu ht hun hraw hm hl
      hsd hed hts
    have hb1 : usageFieldsBlock r = .ok (qu, qt, un) := by
      simp [usageFieldsBlock, hu, ht, hun, pyFloat]
    have hb2 : lastMonthBlock r = .ok lm := by
      simp [lastMonthBlock, hraw, hm, lastElem, hl]
    have hb3 : dateRangeBlock lm =
        .ok (dateSeconds m1 d1 y1, dateSeconds m2 d2 y2) := by
      simp [dateRangeBlock, hsd, hed, strptime]
    have hb4 : curDateBlock r = .error Exc.keyError := by
      simp [curDateBlock, hts]
    exact parse_curDate_err hb1 hb2 hb3 hb4
  · intro r qu qt un inner months lm hu ht hun hraw hm hl hsd
    have hb1 : usageFieldsBlock r = .ok (qu, qt, un) := by
      simp [usageFieldsBlock, hu, ht, hun, pyFloat]
    have hb2 : lastMonthBlock r = .ok lm := by
      simp [lastMonthBlock, hraw, hm, lastElem, hl]
    have hb3 : dateRangeBlock lm = .error Exc.keyError := by
      simp [dateRangeBlock, hsd]
    exact parse_dateRange_err hb1 hb2 hb3

/-- Witness for C7_missing_timestamp_message: the valid record without a
timestamp and the valid record without a startDate produce the same
message. -/
theorem C7_missing_timestamp_message_witness :
    parse_usage_data noTsRecord =
      .error (.runtimeError "Missing start and end date") ∧
    parse_usage_data noStartRecord =
      .error (.runtimeError "Missing start and end date") :=
  ⟨C7_missing_timestamp_message.1 noTsRecord 50 100 "GB" ⟨some [goodMonth]⟩
     [goodMonth] goodMonth 1 1 2024 1 31 2024 rfl rfl rfl rfl rfl rfl rfl
     rfl rfl,
   C7_missing_timestamp_message.2 noStartRecord 50 100 "GB"
     ⟨some [⟨none, some (.valid 1 31 2024)⟩]⟩
     [⟨none, some (.valid 1 31 2024)⟩] ⟨none, some (.valid 1 31 2024)⟩
     rfl rfl rfl rfl rfl rfl rfl⟩

/-- Claim C8 counterexample: a record whose total is present but not
convertible while used is absent is reported as a missing usage field, not
as an invalid float. -/
theorem C8_counterexample :
    totalOnlyRecord.total = some (RawNum.invalid "abc") ∧
    parse_usage_data totalOnlyRecord =
      .error (.runtimeError "Missing usage field") ∧
    parse_usage_data totalOnlyRecord ≠
      .error (.runtimeError "Invalid float for usage") := by
  decide

/-- Claim C8 (amended): the parser reports an invalid float whenever used
is present but not convertible, or used is present and convertible and
total is present but not convertible; when used is absent the missing-field
failure takes precedence. -/
theorem C8_invalid_float_amended (r : RawUsageRecord) :
    (∀ s, r.used = some (RawNum.invalid s) →
      parse_usage_data r =
        .error (.runtimeError "Invalid float for usage")) ∧
    (∀ q s, r.used = some (RawNum.valid q) →
      r.total = some (RawNum.invalid s) →
      parse_usage_data r =
        .error (.runtimeError "Invalid float for usage")) := by
  constructor
  · intro s hu
    have hb : usageFieldsBlock r = .error Exc.valueError := by
      simp [usageFieldsBlock, hu, pyFloat]
    exact parse_usageFields_err hb
  · intro q s hu ht
    have hb : usageFieldsBlock r = .error Exc.valueError := by
      simp [usageFieldsBlock, hu, ht, pyFloat]
    exact parse_usageFields_err hb

/-- Witness for C8_invalid_float_amended: an invalid used, and a valid used
with an invalid total, both surface the invalid-float message. -/
theorem C8_invalid_float_amended_witness :
    parse_usage_data usedInvalidRecord =
      .error (.runtimeError "Invalid float for usage") ∧
    parse_usage_data totalInvalidRecord =
      .error (.runtimeError "Invalid float for usage") :=
  ⟨(C8_invalid_float_amended usedInvalidRecord).1 "xyz" rfl,
   (C8_invalid_float_amended totalInvalidRecord).2 1 "xyz" rfl rfl⟩

/-- Claim C9 counterexample: a record with an empty usageMonths list but no
usage fields is reported as a missing usage field, not as missing month
data. -/
theorem C9_counterexample :
    emptyMonthsNoUsedRecord.raw = some ⟨some []⟩ ∧
    parse_usage_data emptyMonthsNoUsedRecord =
      .error (.runtimeError "Missing usage field") ∧
    parse_usage_data emptyMonthsNoUsedRecord ≠
      .error (.runtimeError "No month data found") := by
  decide

/-- Claim C9 (amended): when the usage fields parse, a present but empty
usageMonths list is reported as missing month data, a message distinct from
the one for an absent usageMonths field. -/
theorem C9_empty_months_amended (r : RawUsageRecord) (qu qt : ℚ)
    (un : String) (inner : RawInner)
    (hu : r.used = some (RawNum.valid qu))
    (ht : r.total = some (RawNum.valid qt)) (hun : r.units = some un)
    (hraw : r.raw = some inner) (hm : inner.usageMonths = some []) :
    parse_usage_data r = .error (.runtimeError "No month data found") ∧
    (PyErr.runtimeError "No month data found" ≠
      PyErr.runtimeError "Missing \"usageMonths\" field") := by
  refine ⟨?_, by decide⟩
  have hb1 : usageFieldsBlock r = .ok (qu, qt, un) := by
    simp [usageFieldsBlock, hu, ht, hun, pyFloat]
  have hb2 : lastMonthBlock r = .error Exc.indexError := by
    simp [lastMonthBlock, hraw, hm, lastElem]
  exact parse_lastMonth_err hb1 hb2

/-- Witness for C9_empty_months_amended at a concrete record with valid
usage fields and an empty month list. -/
theorem C9_empty_months_amended_witness :
    parse_usage_data emptyMonthsRecord =
      .error (.runtimeError "No month data found") ∧
    (PyErr.runtimeError "No month data found" ≠
      PyErr.runtimeError "Missing \"usageMonths\" field") :=
  C9_empty_months_amended emptyMonthsRecord 1 2 "GB" ⟨some []⟩
    rfl rfl rfl rfl rfl

/-- Claim C10 counterexample: a record lacking the raw key and the usage
fields is reported as a missing usage field, not as a missing usageMonths
field. -/
theorem C10_counterexample :
    emptyRecord.raw = none ∧
    parse_usage_data emptyRecord ≠
      .error (.runtimeError "Missing \"usageMonths\" field") := by
  decide

/-- Claim C10 (amended): when the usage fields parse, a record lacking the
top-level raw key fails with the same missing-usageMonths message as one
whose raw dictionary lacks usageMonths; the two parses are equal, so the
caller cannot tell the absences apart. -/
theorem C10_missing_raw_amended (r r' : RawUsageRecord) (qu qt qu' qt' : ℚ)
    (un un' : String)
    (hu : r.used = some (RawNum.valid qu))
    (ht : r.total = some (RawNum.valid qt)) (hun : r.units = some un)
    (hraw : r.raw = none)
    (hu' : r'.used = some (RawNum.valid qu'))
    (ht' : r'.total = some (RawNum.valid qt'))
    (hun' : r'.units = some un')
    (hraw' : r'.raw = some ⟨none⟩) :
    parse_usage_data r =
      .error (.runtimeError "Missing \"usageMonths\" field") ∧
    parse_usage_data r = parse_usage_data r' := by
  have hb1 : usageFieldsBlock r = .ok (qu, qt, un) := by
    simp [usageFieldsBlock, hu, ht, hun, pyFloat]
  have hb2 : lastMonthBlock r = .error Exc.keyError := by
    simp [lastMonthBlock, hraw]
  have hb1' : usageFieldsBlock r' = .ok (qu', qt', un') := by
    simp [usageFieldsBlock, hu', ht', hun', pyFloat]
  have hb2' : lastMonthBlock r' = .error Exc.keyError := by
    simp [lastMonthBlock, hraw']
  have e1 := parse_lastMonth_err hb1 hb2
  have e2 := parse_lastMonth_err hb1' hb2'
  exact ⟨e1, by rw [e1, e2]⟩

/-- Witness for C10_missing_raw_amended at two concrete records: one with
no raw key, one whose raw dictionary has no usageMonths. -/
theorem C10_missing_raw_amended_witness :
    parse_usage_data noRawRecord =
      .error (.runtimeError "Missing \"usageMonths\" field") ∧
    parse_usage_data noRawRecord = parse_usage_data noMonthsRecord :=
  C10_missing_raw_amended noRawRecord noMonthsRecord 1 2 1 2 "GB" "GB"
    rfl rfl rfl rfl rfl rfl rfl rfl
